import Mathlib

/-!
Shallow embedding of `leuchtturm.py`, a command-line scaffolding tool that
tracks a list of notebook sub-directories under a root directory, persists its
metadata in a JSON sidecar file (`.ltrc.json`), and generates a templated
notebook per entry plus a `README.md` index.

Modelling conventions:
* The filesystem under the current working directory is a `World`: the set of
  sub-directories made by `create`, the notebook files, the plain text files
  (`README.md`, `LEUCHTTURM.svg`), and the sidecar file.
* The Python `json` standard library is modelled at the level of parsed
  values: a sidecar file is `absent`, `invalid` (not JSON), or a parsed JSON
  object `RawRC` in which each schema key is present or missing.  Since
  `json.dumps` is a deterministic function of the value, two sidecar files
  hold byte-for-byte identical JSON iff their parsed values are equal.
* Python `sorted` on lists of strings is modelled by a stable insertion sort
  under the code-point lexicographic order; equal strings are identical, so
  the result coincides with Python's Timsort output.
* Interactive `input()` is modelled by passing the response string as an
  explicit argument.
* `logging.error` followed by `return`, and uncaught exceptions, are modelled
  by an `Option LtError` result component; the returned `World` is the state
  at that point.
-/

/-- Code-point lexicographic comparison of char lists: `leL as bs = true` iff
`as ≤ bs` in the order Python uses to compare `str` values. -/
def leL : List Char → List Char → Bool
  | [], _ => true
  | _ :: _, [] => false
  | a :: as, b :: bs =>
    if a.toNat < b.toNat then true
    else if a.toNat = b.toNat then leL as bs
    else false

/-- Python string comparison `a <= b` (lexicographic on code points). -/
def pyLe (a b : String) : Bool := leL a.data b.data

/-- `pyLe` as a relation, for use with `List.insertionSort`. -/
def pyLeR (a b : String) : Prop := pyLe a b = true

instance : DecidableRel pyLeR := fun a b => Bool.decEq (pyLe a b) true

instance : IsTotal String pyLeR where
  total a b := by
    show leL a.data b.data = true ∨ leL b.data a.data = true
    generalize a.data = as, b.data = bs
    induction as generalizing bs with
    | nil => exact Or.inl rfl
    | cons x xs ih =>
      cases bs with
      | nil => exact Or.inr rfl
      | cons y ys =>
        rcases Nat.lt_trichotomy x.toNat y.toNat with h | h | h
        · left; simp [leL, h]
        · rcases ih ys with h2 | h2
          · left; simp [leL, h, h2]
          · right; simp [leL, h.symm, h2]
        · right; simp [leL, h]

instance : IsTrans String pyLeR where
  trans a b c := by
    show leL a.data b.data = true → leL b.data c.data = true → leL a.data c.data = true
    generalize a.data = as, b.data = bs, c.data = cs
    induction as generalizing bs cs with
    | nil =>
      intro _ _
      cases cs <;> rfl
    | cons x xs ih =>
      intro h1 h2
      cases bs with
      | nil => simp [leL] at h1
      | cons y ys =>
        cases cs with
        | nil => simp [leL] at h2
        | cons z zs =>
          simp only [leL] at h1 h2 ⊢
          split_ifs at h1 h2 ⊢ with hxy hxy2 hyz hyz2 <;>
            first
              | rfl
              | exact ih ys zs h1 h2
              | omega

/-- Python's builtin `sorted` on a list of strings (stable sort by code-point
lexicographic order; on strings, stability is unobservable since equal
elements are identical, so any stable sort computes the same list). -/
def pySorted (l : List String) : List String := List.insertionSort pyLeR l

/-- Python's `str.lower`, restricted to the ASCII mapping (the only strings
the program lowercases are interactive yes/no responses). -/
def pyLower (s : String) : String := ⟨s.data.map Char.toLower⟩

/-- Python's `nb_name.replace(" ", "%20")`: every space character is replaced
by the three characters `%20`. -/
def convertSpaces (s : String) : String :=
  ⟨s.data.flatMap (fun c => if c = ' ' then "%20".data else [c])⟩

/-- List prefix test over chars (used to model which paths `shutil.rmtree`
deletes: everything under the removed directory). -/
def isPre : List Char → List Char → Bool
  | [], _ => true
  | _ :: _, [] => false
  | a :: as, b :: bs => a == b && isPre as bs

/-- `os.path.join` for the case used throughout the program: a directory and
a relative component. -/
def pathJoin (a b : String) : String := a ++ "/" ++ b

/-- `os.path.basename`: the part of the path after the last `/` (the whole
string when there is no `/`). -/
def basename (p : String) : String :=
  ⟨(p.data.reverse.takeWhile (fun c => c != '/')).reverse⟩

/-- The sidecar filename constant `RC_FILENAME = ".ltrc.json"`. -/
def RC_FILENAME : String := ".ltrc.json"

instance {ε α : Type} [DecidableEq ε] [DecidableEq α] : DecidableEq (Except ε α) :=
  fun x y =>
    match x, y with
    | Except.ok a, Except.ok b =>
      if h : a = b then isTrue (by rw [h])
      else isFalse (fun he => h (Except.ok.inj he))
    | Except.ok _, Except.error _ => isFalse (fun he => Except.noConfusion he)
    | Except.error _, Except.ok _ => isFalse (fun he => Except.noConfusion he)
    | Except.error e, Except.error f =>
      if h : e = f then isTrue (by rw [h])
      else isFalse (fun he => h (Except.error.inj he))

/-- A parsed sidecar JSON object, as returned by `json.load`: each key of the
expected schema is either present (`some`) or missing (`none`).  Extra keys
are never read by the program and are not modelled. -/
structure RawRC where
  name : Option String
  author : Option String
  author_email : Option String
  author_github_id : Option String
  contents : Option (List String)
deriving DecidableEq

/-- How loading the sidecar can fail: `json.load` raising `JSONDecodeError`
on a file that is not valid JSON, or `RuntimeConfig.__init__` raising
`KeyError` on a missing schema field.  The spec groups both as `ParseError`. -/
inductive LoadError
  | jsonDecodeError
  | keyError (field : String)
deriving DecidableEq

/-- The in-memory configuration held by `RuntimeConfig`. -/
structure RuntimeConfig where
  name : String
  author : String
  author_email : String
  author_github_id : String
  contents : List String
deriving DecidableEq

/-- `rc[key]`: a dictionary lookup that raises `KeyError` when missing. -/
def getKey {α : Type} (o : Option α) (k : String) : Except LoadError α :=
  match o with
  | some v => Except.ok v
  | none => Except.error (LoadError.keyError k)

/-- `RuntimeConfig.__init__`: reads the five schema fields (raising
`KeyError` on the first missing one, in source order) and stores
`sorted(rc["contents"])`. -/
def RuntimeConfig.init (rc : RawRC) : Except LoadError RuntimeConfig := do
  let n ← getKey rc.name "name"
  let a ← getKey rc.author "author"
  let e ← getKey rc.author_email "author_email"
  let g ← getKey rc.author_github_id "author_github_id"
  let cs ← getKey rc.contents "contents"
  return { name := n, author := a, author_email := e, author_github_id := g,
           contents := pySorted cs }

/-- The literal dictionary passed by the `RuntimeConfig.empty` classmethod. -/
def RuntimeConfig.emptyRaw : RawRC :=
  { name := some "LEUCHTTURM", author := some "Author Name",
    author_email := some "author@email.com", author_github_id := some "",
    contents := some [] }

/-- `RuntimeConfig.empty()`: the default configuration with placeholder
identity fields and empty contents. -/
def RuntimeConfig.empty : RuntimeConfig :=
  { name := "LEUCHTTURM", author := "Author Name",
    author_email := "author@email.com", author_github_id := "",
    contents := [] }

/-- The `data` dictionary built by `RuntimeConfig.export`: all five fields of
the config, serialized in full. -/
def RuntimeConfig.toRaw (c : RuntimeConfig) : RawRC :=
  { name := some c.name, author := some c.author,
    author_email := some c.author_email,
    author_github_id := some c.author_github_id,
    contents := some c.contents }

/-- The state of the sidecar file on disk, at the `json` value level. -/
inductive SidecarFile
  | absent
  | invalid
  | json (v : RawRC)
deriving DecidableEq

/-- The load-or-create logic of `Leuchtturm.__init__`: if the sidecar exists
it is parsed with `json.load` and fed to `RuntimeConfig`; otherwise
`RuntimeConfig.empty()` is used.  Errors propagate as uncaught exceptions. -/
def loadRC : SidecarFile → Except LoadError RuntimeConfig
  | SidecarFile.absent => Except.ok RuntimeConfig.empty
  | SidecarFile.invalid => Except.error LoadError.jsonDecodeError
  | SidecarFile.json v => RuntimeConfig.init v

/-- Load the sidecar and save the resulting config back
(`RuntimeConfig.export` after `Leuchtturm.__init__`). -/
def saveLoad (f : SidecarFile) : Except LoadError SidecarFile :=
  (loadRC f).map (fun c => SidecarFile.json c.toRaw)

/-- A cell of the generated Jupyter notebook (`nbformat.v4` markdown or code
cell, identified by its source text). -/
inductive NbCell
  | markdown (source : String)
  | code (source : String)
deriving DecidableEq

/-- A generated Jupyter notebook: its list of cells. -/
structure Notebook where
  cells : List NbCell
deriving DecidableEq

/-- The filesystem under the root plus the running instance state:
directories made by `create`, notebook files, text files, the sidecar file at
`pathJoin cwd RC_FILENAME`, and the in-memory config `self._rc`. -/
structure World where
  cwd : String
  dirs : List String
  nbFiles : List (String × Notebook)
  textFiles : List (String × String)
  rcFile : SidecarFile
  rc : RuntimeConfig
deriving DecidableEq

/-- Look a file up by path. -/
def getEntry {α : Type} (fs : List (String × α)) (p : String) : Option α :=
  (fs.find? (fun kv => kv.1 == p)).map (fun kv => kv.2)

/-- `open(path, "w+")` followed by a full write: create the file or replace
its content. -/
def setEntry {α : Type} (fs : List (String × α)) (p : String) (v : α) :
    List (String × α) :=
  (p, v) :: fs.filter (fun kv => kv.1 != p)

/-- `shutil.rmtree(dir)` restricted to a file map: drop every file whose path
lies strictly under `dir`. -/
def rmtreeFiles {α : Type} (fs : List (String × α)) (dir : String) :
    List (String × α) :=
  fs.filter (fun kv => !(isPre (dir ++ "/").data kv.1.data))

/-- The errors the operations report (`logger.error` plus early return) or
raise (uncaught `FileNotFoundError` from `shutil.rmtree`). -/
inductive LtError
  | alreadyExists (path : String)
  | notTracked (name : String)
  | fileNotFound (path : String)
deriving DecidableEq

/-- A valid content name: nonempty and without a path separator, so that it
denotes a single directory component under the root.  (`os.path.basename` of
`os.path.join(cwd, name)` is then `name` itself.) -/
def validName (s : String) : Prop := s ≠ "" ∧ '/' ∉ s.data

instance (s : String) : Decidable (validName s) :=
  inferInstanceAs (Decidable (s ≠ "" ∧ '/' ∉ s.data))

/-- `Leuchtturm._generate_nb`: the notebook written into `nb_dir`, titled by
the base name of the directory, with a markdown cell
`# <title>\nAuthor: <author> (<author_email>)` and an empty code cell.
Returns the notebook path and the notebook. -/
def generate_nb (rc : RuntimeConfig) (nb_dir : String) : String × Notebook :=
  let title := basename nb_dir
  let tmpl := "# " ++ title ++ "\n" ++ "Author: " ++ rc.author ++ " (" ++
    rc.author_email ++ ")"
  (pathJoin nb_dir (title ++ ".ipynb"),
   { cells := [NbCell.markdown tmpl, NbCell.code ""] })

/-- `Leuchtturm.create`: `os.mkdir` raises `FileExistsError` when the
directory already exists (caught, logged, early return with no mutation);
otherwise the directory and notebook are created, `nb_name` is appended to
the contents and the config is exported to the sidecar. -/
def create (w : World) (nb_name : String) : World × Option LtError :=
  let nb_dir := pathJoin w.cwd nb_name
  if w.dirs.contains nb_name then
    (w, some (LtError.alreadyExists nb_dir))
  else
    let pn := generate_nb w.rc nb_dir
    let rc2 : RuntimeConfig := { w.rc with contents := w.rc.contents ++ [nb_name] }
    ({ w with
        dirs := w.dirs ++ [nb_name]
        nbFiles := setEntry w.nbFiles pn.1 pn.2
        rc := rc2
        rcFile := SidecarFile.json rc2.toRaw }, none)

/-- `Leuchtturm.remove`: a name not in the tracked contents is logged as an
error with no further effect; otherwise the user is prompted and only the
response `y` (case-insensitively) triggers `shutil.rmtree`, removal of the
first occurrence of `nb_name` from the contents, and an export.  `rmtree` on
a missing directory raises `FileNotFoundError`, aborting before the contents
are touched. -/
def remove (w : World) (nb_name resp : String) : World × Option LtError :=
  if w.rc.contents.contains nb_name then
    if pyLower resp == "y" then
      let nb_dir := pathJoin w.cwd nb_name
      if w.dirs.contains nb_name then
        let rc2 : RuntimeConfig := { w.rc with contents := w.rc.contents.erase nb_name }
        ({ w with
            dirs := w.dirs.erase nb_name
            nbFiles := rmtreeFiles w.nbFiles nb_dir
            textFiles := rmtreeFiles w.textFiles nb_dir
            rc := rc2
            rcFile := SidecarFile.json rc2.toRaw }, none)
      else
        (w, some (LtError.fileNotFound nb_dir))
    else
      (w, none)
  else
    (w, some (LtError.notTracked nb_name))

/-- The `LT_LOGO` constant: the static SVG asset written to
`LEUCHTTURM.svg`. -/
def LT_LOGO : String := "<!DOCTYPE svg PUBLIC \"-//W3C//DTD SVG 1.1//EN\" \"http://www.w3.org/Graphics/SVG/1.1/DTD/svg11.dtd\">\n<svg xmlns=\"http://www.w3.org/2000/svg\" xmlns:xlink=\"http://www.w3.org/1999/xlink\" width=\"292px\" height=\"428px\" version=\"1.1\" content=\"&lt;mxfile userAgent=&quot;Mozilla/5.0 (X11; Linux x86_64) AppleWebKit/537.36 (KHTML, like Gecko) Chrome/68.0.3440.106 Safari/537.36&quot; version=&quot;9.1.0&quot; editor=&quot;www.draw.io&quot; type=&quot;device&quot;&gt;&lt;diagram id=&quot;c8f287dc-f202-0129-1897-4a35f5549fc9&quot; name=&quot;Page-1&quot;&gt;xVVNc4IwEP013EmiFI+Var305KHnFFbIGAgTo0B/fRNI+Kg6o9M6JjNM9r3dJLtvAY9Eef0uaZl9iAS4h/2k9sibh/ECz/XTAE0HhGHQAalkSQehAdiyb7Cgb9EjS+AwcVRCcMXKKRiLooBYTTAqpaimbjvBp6eWNIUzYBtTfo5+skRlNou5P+AbYGnmTka+Zb5ovE+lOBb2PA+TXTs6OqduL+t/yGgiqhFEVh6JpBCqW+V1BNyU1pWti1tfYft7SyjULQG4CzhRfgR34/ZeqnG1aLMB4488sqwypmBb0tiwlRZfY5nKuaUPSoo9RIIL2UYTvx0946qJdKbLHeN85NoNg4tCrWnOuOmeDfATKBZTS9hmQYG2KWdpoY1YZwvSADK2/Iu2bG4gFdRX64P6qutmBpGDko12sQHYCdv8squhLXBosWzUEjPnSG0rpv3egxx6YRW5rM7sHnX8x6qzCsz8kzoP0IPgG/VAwT/oQZ6kR3guB3o189lyzMhUDrS4IMeltwPfr4Y2h+9iy43+PWT1Aw==&lt;/diagram&gt;&lt;/mxfile&gt;\"><defs/><g transform=\"translate(0.5,0.5)\"><rect x=\"6\" y=\"14\" width=\"280\" height=\"400\" rx=\"19.6\" ry=\"19.6\" fill=\"#333333\" stroke=\"#000000\" stroke-width=\"12\" pointer-events=\"none\"/><rect x=\"6\" y=\"134\" width=\"280\" height=\"160\" fill=\"#e6e6e6\" stroke=\"#000000\" stroke-width=\"12\" pointer-events=\"none\"/><rect x=\"236\" y=\"4\" width=\"20\" height=\"420\" fill=\"#1a1a1a\" stroke=\"#000000\" stroke-width=\"8\" pointer-events=\"none\"/></g></svg>"

/-- `Leuchtturm.nbviewer_link`: the viewer URL for a content name, with
spaces percent-escaped in both path components. -/
def nbviewer_link (rc : RuntimeConfig) (nb_name : String) : String :=
  let converted := convertSpaces nb_name
  "https://nbviewer.jupyter.org/github/" ++ rc.author_github_id ++ "/" ++
    rc.name ++ "/blob/master/" ++ converted ++ "/" ++ converted ++ ".ipynb"

/-- One list item of the generated `README.md`. -/
def readmeItem (rc : RuntimeConfig) (c : String) : String :=
  "- [" ++ c ++ "](" ++ nbviewer_link rc c ++ ")"

/-- The list of link items of the generated `README.md`, one per tracked
content entry, in the order of `contents`. -/
def readmeItems (rc : RuntimeConfig) : List String :=
  rc.contents.map (readmeItem rc)

/-- The full text written to `README.md`. -/
def readmeText (rc : RuntimeConfig) : String :=
  let contents := String.intercalate "\n" (readmeItems rc)
  "<img src=\"LEUCHTTURM.svg\" align=right width=10%></img>\n" ++
    "# " ++ rc.name ++ "\n" ++
    "Author: " ++ rc.author ++ " (" ++ rc.author_email ++ ")\n" ++
    "\n" ++
    "## Contents\n" ++ contents

/-- `Leuchtturm.readme`: writes the logo asset first when it is absent, then
prompts iff `README.md` already exists; only the response `n`
(case-insensitively) aborts, otherwise `README.md` is (re)written. -/
def readme (w : World) (resp : String) : World :=
  let logo_path := pathJoin w.cwd "LEUCHTTURM.svg"
  let w1 := if (getEntry w.textFiles logo_path).isSome then w
            else { w with textFiles := setEntry w.textFiles logo_path LT_LOGO }
  let readme_path := pathJoin w.cwd "README.md"
  if (getEntry w1.textFiles readme_path).isSome && pyLower resp == "n" then
    w1
  else
    { w1 with textFiles := setEntry w1.textFiles readme_path (readmeText w1.rc) }

/-- Example world shared by witnesses: a root at `/r` tracking one content
`beta` whose directory exists, with a consistent sidecar. -/
def wEx : World :=
  { cwd := "/r", dirs := ["beta"], nbFiles := [], textFiles := [],
    rcFile := SidecarFile.json (RuntimeConfig.toRaw
      { name := "N", author := "A", author_email := "E",
        author_github_id := "G", contents := ["beta"] }),
    rc := { name := "N", author := "A", author_email := "E",
            author_github_id := "G", contents := ["beta"] } }

/-- `wEx` with an existing `README.md`, for the index-generator witnesses. -/
def wDoc : World :=
  { wEx with textFiles := [(pathJoin wEx.cwd "README.md", "old index")] }

/-! ### Helper lemmas -/

theorem pySorted_sorted (l : List String) : List.Sorted pyLeR (pySorted l) :=
  List.sorted_insertionSort pyLeR l

theorem pySorted_perm (l : List String) : (pySorted l).Perm l :=
  List.perm_insertionSort pyLeR l

theorem pySorted_eq_of_sorted {l : List String} (h : List.Sorted pyLeR l) :
    pySorted l = l :=
  h.insertionSort_eq

/-- `RuntimeConfig.__init__` on the exact dictionary `export` serializes:
all lookups succeed and only `contents` is (re)sorted. -/
theorem init_toRaw (c : RuntimeConfig) :
    RuntimeConfig.init c.toRaw =
      Except.ok { c with contents := pySorted c.contents } := rfl

/-- Any successfully loaded config has sorted contents. -/
theorem loadRC_sorted {f : SidecarFile} {c : RuntimeConfig}
    (h : loadRC f = Except.ok c) : List.Sorted pyLeR c.contents := by
  cases f with
  | absent => cases h; exact List.sorted_nil
  | invalid => cases h
  | json v =>
    obtain ⟨n, a, e, g, cs⟩ := v
    cases n <;> cases a <;> cases e <;> cases g <;> cases cs <;> cases h <;>
      exact pySorted_sorted _

theorem takeWhile_append_slash (l₁ l₂ : List Char) (h : '/' ∉ l₁) :
    (l₁ ++ '/' :: l₂).takeWhile (fun c => c != '/') = l₁ := by
  induction l₁ with
  | nil => simp [List.takeWhile_cons]
  | cons a as ih =>
    have ha : a ≠ '/' := fun e => h (e ▸ List.mem_cons_self a as)
    have has : '/' ∉ as := fun m => h (List.mem_cons_of_mem _ m)
    simp [List.takeWhile_cons, ha, ih has]

/-- For a name without a path separator, `os.path.basename(os.path.join(d,
n))` is `n` itself. -/
theorem basename_pathJoin (d n : String) (h : '/' ∉ n.data) :
    basename (pathJoin d n) = n := by
  apply String.ext
  show ((pathJoin d n).data.reverse.takeWhile (fun c => c != '/')).reverse = n.data
  have hdata : (pathJoin d n).data = d.data ++ '/' :: n.data := by
    show (d ++ "/" ++ n).data = d.data ++ '/' :: n.data
    simp [String.data_append]
  rw [hdata]
  have hrev : (d.data ++ '/' :: n.data).reverse = n.data.reverse ++ '/' :: d.data.reverse := by
    simp
  rw [hrev, takeWhile_append_slash _ _ (by simpa using h), List.reverse_reverse]

/-- Adding a component keeps `pathJoin` injective in the component. -/
theorem pathJoin_ne (d : String) {x y : String} (h : x ≠ y) :
    pathJoin d x ≠ pathJoin d y := by
  intro he
  apply h
  have hd : (pathJoin d x).data = (pathJoin d y).data := congrArg String.data he
  show x = y
  apply String.ext
  have : d.data ++ '/' :: x.data = d.data ++ '/' :: y.data := by
    simpa [pathJoin, String.data_append] using hd
  have := List.append_cancel_left this
  exact List.cons.inj this |>.2

theorem getEntry_cons_eq {α : Type} (fs : List (String × α)) (p : String) (v : α) :
    getEntry ((p, v) :: fs) p = some v := by
  unfold getEntry
  rw [List.find?_cons_of_pos _ (by simp)]
  rfl

theorem getEntry_cons_ne {α : Type} (fs : List (String × α)) {p q : String}
    (v : α) (h : p ≠ q) : getEntry ((p, v) :: fs) q = getEntry fs q := by
  unfold getEntry
  rw [List.find?_cons_of_neg _ (by simp [h])]

theorem getEntry_filter_ne {α : Type} (fs : List (String × α)) {p q : String}
    (h : q ≠ p) :
    getEntry (fs.filter (fun kv => kv.1 != p)) q = getEntry fs q := by
  induction fs with
  | nil => rfl
  | cons kv t ih =>
    obtain ⟨k, v⟩ := kv
    by_cases hk : k = q
    · subst hk
      rw [List.filter_cons_of_pos (by simp [h])]
      rw [getEntry_cons_eq, getEntry_cons_eq]
    · by_cases hp : k = p
      · rw [List.filter_cons_of_neg (by simp [hp]), ih, getEntry_cons_ne _ _ hk]
      · rw [List.filter_cons_of_pos (by simp [hp]), getEntry_cons_ne _ _ hk,
          getEntry_cons_ne _ _ hk, ih]

theorem getEntry_setEntry_self {α : Type} (fs : List (String × α)) (p : String)
    (v : α) : getEntry (setEntry fs p v) p = some v := by
  unfold setEntry
  exact getEntry_cons_eq _ _ _

theorem getEntry_setEntry_ne {α : Type} (fs : List (String × α)) {p q : String}
    (v : α) (h : q ≠ p) : getEntry (setEntry fs p v) q = getEntry fs q := by
  unfold setEntry
  rw [getEntry_cons_ne _ _ (fun e => h e.symm), getEntry_filter_ne _ h]

/-- `create` in the `FileExistsError` branch: logged and returned with the
whole state (including the sidecar file) untouched. -/
theorem create_exists_eq {w : World} {nb_name : String} (h : nb_name ∈ w.dirs) :
    create w nb_name = (w, some (LtError.alreadyExists (pathJoin w.cwd nb_name))) := by
  simp [create, h]

/-- `create` in the success branch, fully described. -/
theorem create_not_exists_eq {w : World} {nb_name : String} (h : nb_name ∉ w.dirs) :
    create w nb_name =
      ({ w with
          dirs := w.dirs ++ [nb_name]
          nbFiles := setEntry w.nbFiles
            (pathJoin (pathJoin w.cwd nb_name)
              (basename (pathJoin w.cwd nb_name) ++ ".ipynb"))
            { cells := [NbCell.markdown ("# " ++ basename (pathJoin w.cwd nb_name) ++
                "\n" ++ "Author: " ++ w.rc.author ++ " (" ++ w.rc.author_email ++ ")"),
              NbCell.code ""] }
          rc := { w.rc with contents := w.rc.contents ++ [nb_name] }
          rcFile := SidecarFile.json
            { w.rc with contents := w.rc.contents ++ [nb_name] }.toRaw }, none) := by
  simp [create, h, generate_nb]

/-- `remove` on an untracked name: logged, no further side effects. -/
theorem remove_not_tracked_eq {w : World} {nb_name resp : String}
    (h : nb_name ∉ w.rc.contents) :
    remove w nb_name resp = (w, some (LtError.notTracked nb_name)) := by
  simp [remove, h]

/-- `remove` with any response other than `y`: no state change. -/
theorem remove_decline_eq {w : World} {nb_name resp : String}
    (h : nb_name ∈ w.rc.contents) (hn : pyLower resp ≠ "y") :
    remove w nb_name resp = (w, none) := by
  simp [remove, h, hn]

/-- `remove` confirmed on a tracked name whose directory exists, fully
described. -/
theorem remove_confirm_eq {w : World} {nb_name resp : String}
    (h : nb_name ∈ w.rc.contents) (hy : pyLower resp = "y")
    (hd : nb_name ∈ w.dirs) :
    remove w nb_name resp =
      ({ w with
          dirs := w.dirs.erase nb_name
          nbFiles := rmtreeFiles w.nbFiles (pathJoin w.cwd nb_name)
          textFiles := rmtreeFiles w.textFiles (pathJoin w.cwd nb_name)
          rc := { w.rc with contents := w.rc.contents.erase nb_name }
          rcFile := SidecarFile.json
            { w.rc with contents := w.rc.contents.erase nb_name }.toRaw }, none) := by
  simp [remove, h, hy, hd]

/-! ### Claims -/

/-- C1: for every valid name, `create(name)` (which succeeds because no
directory of that name exists) followed immediately by `remove(name)` with an
affirmative confirmation restores the tracked-contents set (indeed the
multiset) to its value before the create, and deletes the directory that
create made. -/
theorem create_remove_roundtrip (w : World) (nb_name resp : String)
    (hv : validName nb_name) (hdir : nb_name ∉ w.dirs)
    (hy : pyLower resp = "y") :
    ((remove (create w nb_name).1 nb_name resp).1.rc.contents).Perm w.rc.contents ∧
    (∀ x, x ∈ (remove (create w nb_name).1 nb_name resp).1.rc.contents ↔
      x ∈ w.rc.contents) ∧
    (remove (create w nb_name).1 nb_name resp).1.dirs = w.dirs ∧
    nb_name ∉ (remove (create w nb_name).1 nb_name resp).1.dirs := by
  rw [create_not_exists_eq hdir]
  rw [remove_confirm_eq (by simp) hy (by simp)]
  have hperm : ((w.rc.contents ++ [nb_name]).erase nb_name).Perm w.rc.contents := by
    have h1 : ((w.rc.contents ++ [nb_name]).erase nb_name).Perm
        ((nb_name :: w.rc.contents).erase nb_name) :=
      List.Perm.erase _ (List.perm_append_singleton _ _)
    rwa [List.erase_cons_head] at h1
  have hdirs : (w.dirs ++ [nb_name]).erase nb_name = w.dirs := by
    rw [List.erase_append_right _ hdir, List.erase_cons_head]
    simp
  exact ⟨hperm, fun x => hperm.mem_iff, hdirs, by rw [hdirs]; exact hdir⟩

theorem create_remove_roundtrip_witness :
    ((remove (create wEx "alpha").1 "alpha" "y").1.rc.contents).Perm wEx.rc.contents ∧
    (remove (create wEx "alpha").1 "alpha" "y").1.dirs = wEx.dirs ∧
    "alpha" ∉ (remove (create wEx "alpha").1 "alpha" "y").1.dirs := by
  obtain ⟨h1, h2, h3, h4⟩ :=
    create_remove_roundtrip wEx "alpha" "y" (by decide) (by decide) (by decide)
  exact ⟨h1, h3, h4⟩

/-- C2: if a directory named `name` already exists, `create(name)` fails with
AlreadyExists and leaves all state unchanged: the returned world is exactly
the input world, so the in-memory contents list is not mutated and the
sidecar file (hence its serialized bytes) is untouched. -/
theorem create_already_exists (w : World) (nb_name : String)
    (h : nb_name ∈ w.dirs) :
    create w nb_name = (w, some (LtError.alreadyExists (pathJoin w.cwd nb_name))) :=
  create_exists_eq h

theorem create_already_exists_witness :
    create wEx "beta" = (wEx, some (LtError.alreadyExists (pathJoin wEx.cwd "beta"))) :=
  create_already_exists wEx "beta" (by decide)

/-- C3 counterexample: loading a sidecar whose contents array holds the
duplicate `["a", "a"]` yields an in-memory contents list that still holds the
duplicate — `sorted` does not deduplicate, so the claim that the list after
load "contains no duplicates" is false. -/
theorem load_duplicates_cex :
    loadRC (SidecarFile.json
      { name := some "LEUCHTTURM", author := some "A",
        author_email := some "a@b.c", author_github_id := some "",
        contents := some ["a", "a"] }) =
      Except.ok
        { name := "LEUCHTTURM", author := "A", author_email := "a@b.c",
          author_github_id := "", contents := ["a", "a"] } ∧
    ¬ (["a", "a"] : List String).Nodup := by
  exact ⟨by decide, by decide⟩

/-- C3 (amended): for every sidecar contents array, regardless of order and
duplicates, the contents list held after load is sorted lexicographically;
duplicates are preserved, the loaded list being a permutation of the input. -/
theorem load_sorted_permutation (n a e g : String) (cs : List String) :
    loadRC (SidecarFile.json
      { name := some n, author := some a, author_email := some e,
        author_github_id := some g, contents := some cs }) =
      Except.ok
        { name := n, author := a, author_email := e, author_github_id := g,
          contents := pySorted cs } ∧
    List.Sorted pyLeR (pySorted cs) ∧ (pySorted cs).Perm cs :=
  ⟨rfl, pySorted_sorted cs, pySorted_perm cs⟩

/-- C4 counterexample: a sidecar just saved by `create` (which appends the
new name after the sorted prefix) can hold an unsorted contents array;
loading it re-sorts, so saving what was loaded produces a different JSON
value (hence different bytes) than the file that was loaded. -/
def wC4 : World :=
  { cwd := "/r", dirs := ["b"], nbFiles := [], textFiles := [],
    rcFile := SidecarFile.json (RuntimeConfig.toRaw
      { name := "N", author := "A", author_email := "E",
        author_github_id := "G", contents := ["b"] }),
    rc := { name := "N", author := "A", author_email := "E",
            author_github_id := "G", contents := ["b"] } }

theorem save_load_roundtrip_cex :
    (create wC4 "a").1.rcFile = SidecarFile.json
      { name := some "N", author := some "A", author_email := some "E",
        author_github_id := some "G", contents := some ["b", "a"] } ∧
    saveLoad ((create wC4 "a").1.rcFile) = Except.ok (SidecarFile.json
      { name := some "N", author := some "A", author_email := some "E",
        author_github_id := some "G", contents := some ["a", "b"] }) ∧
    saveLoad ((create wC4 "a").1.rcFile) ≠ Except.ok ((create wC4 "a").1.rcFile) := by
  exact ⟨by decide, by decide, by decide⟩

/-- C4 (amended): load-then-save is idempotent as an operation on sidecar
files: applying it to a file it itself produced reproduces that file
identically (any config produced by load has sorted contents, and sorting is
the only normalization save-after-load performs). -/
theorem save_load_idempotent (f f' : SidecarFile)
    (h : saveLoad f = Except.ok f') : saveLoad f' = Except.ok f' := by
  unfold saveLoad at h ⊢
  cases hl : loadRC f with
  | error e => rw [hl] at h; cases h
  | ok c =>
    rw [hl] at h
    have hf : f' = SidecarFile.json c.toRaw := (Except.ok.inj h).symm
    subst hf
    have hs : List.Sorted pyLeR c.contents := loadRC_sorted hl
    have : loadRC (SidecarFile.json c.toRaw) = Except.ok c := by
      rw [show loadRC (SidecarFile.json c.toRaw) = RuntimeConfig.init c.toRaw from rfl,
        init_toRaw, pySorted_eq_of_sorted hs]
    rw [this]
    rfl

theorem save_load_idempotent_witness :
    saveLoad (SidecarFile.json RuntimeConfig.empty.toRaw) =
      Except.ok (SidecarFile.json RuntimeConfig.empty.toRaw) :=
  save_load_idempotent SidecarFile.absent
    (SidecarFile.json RuntimeConfig.empty.toRaw) (by decide)

/-- C5: when no directory named `name` exists (and `name` is a valid single
path component), `create(name)` succeeds, creates the directory, writes into
it a notebook whose markdown cell has heading line `# <name>` and
author-credit line `Author: <author> (<author_email>)` from the configured
author, appends `name` to the contents and persists the config to the
sidecar. -/
theorem create_success_spec (w : World) (nb_name : String)
    (hv : validName nb_name) (hdir : nb_name ∉ w.dirs) :
    (create w nb_name).2 = none ∧
    nb_name ∈ (create w nb_name).1.dirs ∧
    getEntry (create w nb_name).1.nbFiles
        (pathJoin (pathJoin w.cwd nb_name) (nb_name ++ ".ipynb")) =
      some { cells := [NbCell.markdown ("# " ++ nb_name ++ "\n" ++ "Author: " ++
        w.rc.author ++ " (" ++ w.rc.author_email ++ ")"), NbCell.code ""] } ∧
    (create w nb_name).1.rc.contents = w.rc.contents ++ [nb_name] ∧
    (create w nb_name).1.rcFile = SidecarFile.json (create w nb_name).1.rc.toRaw := by
  have hb : basename (pathJoin w.cwd nb_name) = nb_name := basename_pathJoin _ _ hv.2
  rw [create_not_exists_eq hdir]
  refine ⟨rfl, by simp, ?_, rfl, rfl⟩
  show getEntry (setEntry w.nbFiles _ _) _ = _
  rw [hb]
  exact getEntry_setEntry_self _ _ _

theorem create_success_witness :
    (create wEx "alpha").2 = none ∧
    "alpha" ∈ (create wEx "alpha").1.dirs ∧
    getEntry (create wEx "alpha").1.nbFiles
        (pathJoin (pathJoin wEx.cwd "alpha") ("alpha" ++ ".ipynb")) =
      some { cells := [NbCell.markdown ("# " ++ "alpha" ++ "\n" ++ "Author: " ++
        wEx.rc.author ++ " (" ++ wEx.rc.author_email ++ ")"), NbCell.code ""] } ∧
    (create wEx "alpha").1.rc.contents = wEx.rc.contents ++ ["alpha"] ∧
    (create wEx "alpha").1.rcFile = SidecarFile.json (create wEx "alpha").1.rc.toRaw :=
  create_success_spec wEx "alpha" (by decide) (by decide)

/-- C6: `remove(name)` changes state only when `name` is tracked and the
confirmation is affirmative: an untracked name is reported with no state
change; a tracked name with a non-affirmative response changes nothing; a
tracked name with an affirmative response (its directory existing, as the
contents-mirror invariant guarantees) deletes the directory tree and every
file under it, removes `name` from the contents, and persists the config. -/
theorem remove_spec (w : World) (nb_name resp : String) :
    (nb_name ∉ w.rc.contents →
      remove w nb_name resp = (w, some (LtError.notTracked nb_name))) ∧
    (nb_name ∈ w.rc.contents → pyLower resp ≠ "y" →
      remove w nb_name resp = (w, none)) ∧
    (nb_name ∈ w.rc.contents → pyLower resp = "y" → nb_name ∈ w.dirs →
      remove w nb_name resp =
        ({ w with
            dirs := w.dirs.erase nb_name
            nbFiles := rmtreeFiles w.nbFiles (pathJoin w.cwd nb_name)
            textFiles := rmtreeFiles w.textFiles (pathJoin w.cwd nb_name)
            rc := { w.rc with contents := w.rc.contents.erase nb_name }
            rcFile := SidecarFile.json
              { w.rc with contents := w.rc.contents.erase nb_name }.toRaw }, none)) :=
  ⟨fun h => remove_not_tracked_eq h,
   fun h hn => remove_decline_eq h hn,
   fun h hy hd => remove_confirm_eq h hy hd⟩

theorem remove_spec_witness :
    remove wEx "x" "y" = (wEx, some (LtError.notTracked "x")) ∧
    remove wEx "beta" "q" = (wEx, none) ∧
    remove wEx "beta" "Y" =
      ({ wEx with
          dirs := wEx.dirs.erase "beta"
          nbFiles := rmtreeFiles wEx.nbFiles (pathJoin wEx.cwd "beta")
          textFiles := rmtreeFiles wEx.textFiles (pathJoin wEx.cwd "beta")
          rc := { wEx.rc with contents := wEx.rc.contents.erase "beta" }
          rcFile := SidecarFile.json
            { wEx.rc with contents := wEx.rc.contents.erase "beta" }.toRaw }, none) :=
  ⟨(remove_spec wEx "x" "y").1 (by decide),
   (remove_spec wEx "beta" "q").2.1 (by decide) (by decide),
   (remove_spec wEx "beta" "Y").2.2 (by decide) (by decide) (by decide)⟩

/-- C7: the generated index has one list item per tracked content name,
formatted `- [name](url)` with the literal name as link text and the fixed
viewer URL template (parameterized by the github id, the collection name and
the content name with spaces replaced by `%20`); in particular, for contents
`["alpha", "beta two"]`, github id `octo` and collection name `Proj`, the
second link has `beta%20two` in the URL and literal `beta two` as text. -/
theorem readme_link_format :
    (∀ rc : RuntimeConfig, readmeItems rc = rc.contents.map (fun c =>
      "- [" ++ c ++ "](" ++
        ("https://nbviewer.jupyter.org/github/" ++ rc.author_github_id ++ "/" ++
          rc.name ++ "/blob/master/" ++ convertSpaces c ++ "/" ++
          convertSpaces c ++ ".ipynb") ++ ")")) ∧
    readmeItems
        { name := "Proj", author := "A", author_email := "E",
          author_github_id := "octo", contents := ["alpha", "beta two"] } =
      ["- [alpha](https://nbviewer.jupyter.org/github/octo/Proj/blob/master/alpha/alpha.ipynb)",
       "- [beta two](https://nbviewer.jupyter.org/github/octo/Proj/blob/master/beta%20two/beta%20two.ipynb)"] := by
  constructor
  · intro rc
    rfl
  · decide

/-- C8: load returns the parsed config (with sorted contents) when the
sidecar is present and schema-valid; an absent file yields the default
config with placeholder identity fields and empty contents; a file that is
not valid JSON, or is missing a required field, fails with a parse error
(`JSONDecodeError` resp. `KeyError`). -/
theorem load_spec :
    (∀ n a e g cs, loadRC (SidecarFile.json
        { name := some n, author := some a, author_email := some e,
          author_github_id := some g, contents := some cs }) =
      Except.ok
        { name := n, author := a, author_email := e, author_github_id := g,
          contents := pySorted cs }) ∧
    loadRC SidecarFile.absent =
      Except.ok
        { name := "LEUCHTTURM", author := "Author Name",
          author_email := "author@email.com", author_github_id := "",
          contents := [] } ∧
    loadRC SidecarFile.invalid = Except.error LoadError.jsonDecodeError ∧
    (∀ v : RawRC, v.name = none →
      loadRC (SidecarFile.json v) = Except.error (LoadError.keyError "name")) ∧
    (∀ (v : RawRC) n, v.name = some n → v.author = none →
      loadRC (SidecarFile.json v) = Except.error (LoadError.keyError "author")) ∧
    (∀ (v : RawRC) n a, v.name = some n → v.author = some a →
      v.author_email = none →
      loadRC (SidecarFile.json v) = Except.error (LoadError.keyError "author_email")) ∧
    (∀ (v : RawRC) n a e, v.name = some n → v.author = some a →
      v.author_email = some e → v.author_github_id = none →
      loadRC (SidecarFile.json v) = Except.error (LoadError.keyError "author_github_id")) ∧
    (∀ (v : RawRC) n a e g, v.name = some n → v.author = some a →
      v.author_email = some e → v.author_github_id = some g → v.contents = none →
      loadRC (SidecarFile.json v) = Except.error (LoadError.keyError "contents")) := by
  refine ⟨fun n a e g cs => rfl, rfl, rfl, ?_, ?_, ?_, ?_, ?_⟩
  · rintro ⟨n, a, e, g, cs⟩ h
    cases h; rfl
  · rintro ⟨n, a, e, g, cs⟩ n0 h1 h2
    cases h1; cases h2; rfl
  · rintro ⟨n, a, e, g, cs⟩ n0 a0 h1 h2 h3
    cases h1; cases h2; cases h3; rfl
  · rintro ⟨n, a, e, g, cs⟩ n0 a0 e0 h1 h2 h3 h4
    cases h1; cases h2; cases h3; cases h4; rfl
  · rintro ⟨n, a, e, g, cs⟩ n0 a0 e0 g0 h1 h2 h3 h4 h5
    cases h1; cases h2; cases h3; cases h4; cases h5; rfl

theorem load_spec_witness :
    loadRC (SidecarFile.json
      { name := none, author := some "A", author_email := some "E",
        author_github_id := some "G", contents := some [] }) =
      Except.error (LoadError.keyError "name") ∧
    loadRC (SidecarFile.json
      { name := some "N", author := none, author_email := some "E",
        author_github_id := some "G", contents := some [] }) =
      Except.error (LoadError.keyError "author") ∧
    loadRC (SidecarFile.json
      { name := some "N", author := some "A", author_email := none,
        author_github_id := some "G", contents := some [] }) =
      Except.error (LoadError.keyError "author_email") ∧
    loadRC (SidecarFile.json
      { name := some "N", author := some "A", author_email := some "E",
        author_github_id := none, contents := some [] }) =
      Except.error (LoadError.keyError "author_github_id") ∧
    loadRC (SidecarFile.json
      { name := some "N", author := some "A", author_email := some "E",
        author_github_id := some "G", contents := none }) =
      Except.error (LoadError.keyError "contents") :=
  ⟨load_spec.2.2.2.1 _ rfl,
   load_spec.2.2.2.2.1 _ "N" rfl rfl,
   load_spec.2.2.2.2.2.1 _ "N" "A" rfl rfl rfl,
   load_spec.2.2.2.2.2.2.1 _ "N" "A" "E" rfl rfl rfl rfl,
   load_spec.2.2.2.2.2.2.2 _ "N" "A" "E" "G" rfl rfl rfl rfl rfl⟩

/-- C9: when an index document already exists, `readme` prompts for overwrite
confirmation, and declining (response `n`, case-insensitively) leaves the
existing `README.md` content unchanged. -/
theorem readme_decline_preserves (w : World) (resp s : String)
    (hr : getEntry w.textFiles (pathJoin w.cwd "README.md") = some s)
    (hn : pyLower resp = "n") :
    getEntry (readme w resp).textFiles (pathJoin w.cwd "README.md") = some s := by
  have hne : pathJoin w.cwd "README.md" ≠ pathJoin w.cwd "LEUCHTTURM.svg" :=
    pathJoin_ne _ (by decide)
  unfold readme
  by_cases hl : (getEntry w.textFiles (pathJoin w.cwd "LEUCHTTURM.svg")).isSome
  · simp only [hl, if_true]
    have : (getEntry w.textFiles (pathJoin w.cwd "README.md")).isSome = true := by
      rw [hr]; rfl
    simp only [this, hn, Bool.true_and]
    rw [if_pos (by decide)]
    exact hr
  · simp only [hl, if_false, Bool.false_eq_true]
    have hstep : getEntry (setEntry w.textFiles (pathJoin w.cwd "LEUCHTTURM.svg")
        LT_LOGO) (pathJoin w.cwd "README.md") = some s := by
      rw [getEntry_setEntry_ne _ _ hne]; exact hr
    have : (getEntry (setEntry w.textFiles (pathJoin w.cwd "LEUCHTTURM.svg")
        LT_LOGO) (pathJoin w.cwd "README.md")).isSome = true := by
      rw [hstep]; rfl
    simp only [this, hn, Bool.true_and]
    rw [if_pos (by decide)]
    exact hstep

theorem readme_decline_preserves_witness :
    getEntry (readme wDoc "n").textFiles (pathJoin wDoc.cwd "README.md") =
      some "old index" :=
  readme_decline_preserves wDoc "n" "old index" (by decide) (by decide)

/-- C10: every invocation of `readme` writes the logo asset `LEUCHTTURM.svg`
when it is absent, before the overwrite prompt is consulted — so the logo is
created for every response; and when the user declines overwriting an
existing index document, the logo write is the only state change. -/
theorem readme_writes_logo (w : World) (resp : String)
    (hl : getEntry w.textFiles (pathJoin w.cwd "LEUCHTTURM.svg") = none) :
    getEntry (readme w resp).textFiles (pathJoin w.cwd "LEUCHTTURM.svg") =
      some LT_LOGO ∧
    (readme w resp).dirs = w.dirs ∧
    (readme w resp).rc = w.rc ∧
    (readme w resp).rcFile = w.rcFile ∧
    (readme w resp).nbFiles = w.nbFiles ∧
    ((getEntry w.textFiles (pathJoin w.cwd "README.md")).isSome = true →
      pyLower resp = "n" →
      ∀ p, p ≠ pathJoin w.cwd "LEUCHTTURM.svg" →
        getEntry (readme w resp).textFiles p = getEntry w.textFiles p) := by
  have hne : pathJoin w.cwd "README.md" ≠ pathJoin w.cwd "LEUCHTTURM.svg" :=
    pathJoin_ne _ (by decide)
  have hlf : (getEntry w.textFiles (pathJoin w.cwd "LEUCHTTURM.svg")).isSome = false := by
    rw [hl]; rfl
  unfold readme
  simp only [hlf, Bool.false_eq_true, if_false]
  have hstep : ∀ q, q ≠ pathJoin w.cwd "LEUCHTTURM.svg" →
      getEntry (setEntry w.textFiles (pathJoin w.cwd "LEUCHTTURM.svg") LT_LOGO) q =
        getEntry w.textFiles q :=
    fun q hq => getEntry_setEntry_ne _ _ hq
  by_cases hcond : (getEntry (setEntry w.textFiles (pathJoin w.cwd "LEUCHTTURM.svg")
      LT_LOGO) (pathJoin w.cwd "README.md")).isSome && (pyLower resp == "n")
  · rw [if_pos hcond]
    exact ⟨getEntry_setEntry_self _ _ _, rfl, rfl, rfl, rfl,
      fun _ _ p hp => hstep p hp⟩
  · rw [if_neg hcond]
    refine ⟨?_, rfl, rfl, rfl, rfl, ?_⟩
    · rw [getEntry_setEntry_ne _ _ (fun e => hne e.symm)]
      exact getEntry_setEntry_self _ _ _
    · intro hrm hn
      exfalso
      apply hcond
      rw [hstep _ hne, hrm, hn]
      decide

theorem readme_writes_logo_witness :
    getEntry (readme wDoc "N").textFiles (pathJoin wDoc.cwd "LEUCHTTURM.svg") =
      some LT_LOGO ∧
    (readme wDoc "N").nbFiles = wDoc.nbFiles ∧
    (readme wDoc "N").rcFile = wDoc.rcFile ∧
    getEntry (readme wDoc "N").textFiles (pathJoin wDoc.cwd "README.md") =
      getEntry wDoc.textFiles (pathJoin wDoc.cwd "README.md") := by
  obtain ⟨h1, h2, h3, h4, h5, h6⟩ := readme_writes_logo wDoc "N" (by decide)
  exact ⟨h1, h5, h4, h6 (by decide) (by decide) _ (by decide)⟩
